import Mathlib

/-!
Verification of `ml_eda/reporting/recommendation.py`: four threshold
checkers over precomputed analysis records.  Numeric metric values are
embedded as exact rationals (`ℚ`); Python's `raise` is embedded as the
`Except.error` branch of an `Except` result; a checker that can return
either `None` or a message returns an `Option`.
-/

namespace MlEda

/-- Modelled from the spec: the protobuf module `ml_eda/metadata/run_metadata_pb2`
is not under `src/`.  Per the spec (§3), a scalar metric's kind is one of an
enumerated set: TOTAL_COUNT, MISSING, CARDINALITY, CORRELATION_COEFFICIENT,
and others used only by statistical tests (here P_VALUE). -/
inductive MetricName where
  | TOTAL_COUNT
  | MISSING
  | CARDINALITY
  | CORRELATION_COEFFICIENT
  | P_VALUE
deriving DecidableEq

/-- Modelled from the spec: the protobuf analysis-kind enumeration
(`run_metadata_pb2.Analysis.Name`) is not under `src/`.  Per the spec (§4.4),
`Analysis.Name.Name` resolves the enumeration value to its display name,
e.g. "T_TEST", "CHI_SQUARE". -/
inductive AnalysisName where
  | PEARSON_CORRELATION
  | T_TEST
  | CHI_SQUARE
deriving DecidableEq

/-- Modelled from the spec: display-name resolution for the analysis-kind
enumeration (`run_metadata_pb2.Analysis.Name.Name`). -/
def AnalysisName.displayName : AnalysisName → String
  | .PEARSON_CORRELATION => "PEARSON_CORRELATION"
  | .T_TEST => "T_TEST"
  | .CHI_SQUARE => "CHI_SQUARE"

/-- Modelled from the spec: `run_metadata_pb2.ScalarMetric`, a (kind, numeric
value) pair (§3).  The numeric value is embedded as an exact rational. -/
structure ScalarMetric where
  name : MetricName
  value : ℚ
deriving DecidableEq

/-- Modelled from the spec: a feature/attribute descriptor carrying a `name`
string (§3). -/
structure FeatureAttribute where
  name : String
deriving DecidableEq

/-- Modelled from the spec: `run_metadata_pb2.Analysis` (§3): an analysis kind,
an ordered feature list, and an ordered scalar-metric list (`smetrics`). -/
structure Analysis where
  name : AnalysisName
  features : List FeatureAttribute
  smetrics : List ScalarMetric
deriving DecidableEq

/-- Python runtime errors raised by the checkers: `ValueError` (with its
message) and the `IndexError` raised by out-of-range list indexing. -/
inductive PyError where
  | valueError (msg : String)
  | indexError
deriving DecidableEq

/-- Modelled from the spec: the template module `ml_eda/reporting/template` is
not under `src/`.  Per the spec (§6), each template is a named format string
(HIGH_MISSING, HIGH_CARDINALITY, HIGH_CORRELATION, LOW_P_VALUE) with named
parameters; a rendered message is embedded as the template kind together with
the argument values interpolated into it. -/
inductive Message where
  | highMissing (name : String) (value : ℚ)
  | highCardinality (name : String) (value : ℚ)
  | highCorrelation (name_one name_two metric value : String)
  | lowPValue (name_one name_two metric value test_name : String)
deriving DecidableEq

/-- Threshold `MISSING_THRESHOLD = 0.1` from the source. -/
def MISSING_THRESHOLD : ℚ := 1 / 10

/-- Threshold `CARDINALITY_THRESHOLD = 100` from the source. -/
def CARDINALITY_THRESHOLD : ℚ := 100

/-- Threshold `CORRELATION_COEFFICIENT_THRESHOLD = 0.3` from the source. -/
def CORRELATION_COEFFICIENT_THRESHOLD : ℚ := 3 / 10

/-- Threshold `P_VALUE_THRESHOLD = 0.05` from the source. -/
def P_VALUE_THRESHOLD : ℚ := 1 / 20

/-! ## Decimal formatting helpers

`check_pearson_correlation` renders its coefficient with the Python format
`"{0:.2f}".format(coefficient)` and `check_p_value` renders its p-value with
`"{:.2E}".format(Decimal(str(p_value)))`.  The helpers below embed those two
decimal renderings for exact rational inputs: fixed-point with two decimal
places, and scientific notation with two digits after the point, both using
round-half-to-even (the rounding used by Python). -/

/-- Number of decimal digits of `n` (with explicit fuel; `digitsLen n n` is
the digit count of a positive `n`). -/
def digitsLen : Nat → Nat → Nat
  | 0, _ => 0
  | fuel + 1, n => if n < 10 then 1 else digitsLen fuel (n / 10) + 1

/-- Render a natural number below 100 as exactly two digits. -/
def pad2 (n : Nat) : String :=
  if n < 10 then "0" ++ toString n else toString n

/-- Round a rational to the nearest integer, ties to even. -/
def roundHalfEven (q : ℚ) : ℤ :=
  let f := ⌊q⌋
  let r := q - f
  if r < 1 / 2 then f
  else if 1 / 2 < r then f + 1
  else if f % 2 = 0 then f else f + 1

/-- Embedding of Python's fixed-point format `"{0:.2f}"` on an exact
rational. -/
def format2f (q : ℚ) : String :=
  let n := roundHalfEven (q * 100)
  let sign := if n < 0 ∨ (n = 0 ∧ q < 0) then "-" else ""
  sign ++ toString (n.natAbs / 100) ++ "." ++ pad2 (n.natAbs % 100)

/-- `pow10 e` is `10 ^ e` over `ℚ`, for an integer exponent. -/
def pow10 (e : ℤ) : ℚ :=
  if 0 ≤ e then ((10 ^ e.toNat : ℕ) : ℚ) else 1 / ((10 ^ (-e).toNat : ℕ) : ℚ)

/-- For `q > 0`, the decimal exponent `e` with `10 ^ e ≤ q < 10 ^ (e + 1)`,
computed from the digit counts of numerator and denominator. -/
def findExp (q : ℚ) : ℤ :=
  let e0 : ℤ := (digitsLen q.num.natAbs q.num.natAbs : ℤ) - (digitsLen q.den q.den : ℤ)
  if q < pow10 e0 then e0 - 1 else e0

/-- Exponent part of the scientific rendering: sign (Python's `Decimal`
formatting writes `E-4`, `E+0`, with no zero padding) and digits. -/
def expStr (e : ℤ) : String :=
  if e < 0 then "-" ++ toString e.natAbs else "+" ++ toString e.natAbs

/-- Scientific rendering of a positive rational with two digits after the
point: mantissa in `[1, 10)` rounded half-to-even to three significant
digits, with carry into the exponent when rounding reaches `10.00`. -/
def format2Epos (q : ℚ) : String :=
  let e := findExp q
  let m := roundHalfEven (q * pow10 (2 - e))
  let me : ℤ × ℤ := if m = 1000 then (100, e + 1) else (m, e)
  toString (me.1.natAbs / 100) ++ "." ++ pad2 (me.1.natAbs % 100) ++ "E" ++ expStr me.2

/-- Embedding of Python's `"{:.2E}".format(Decimal(str(q)))` on an exact
rational.  A float `0.0` reaches `Decimal` as the literal `"0.0"`, which this
format renders as `0.00E+1`. -/
def format2E (q : ℚ) : String :=
  if q < 0 then "-" ++ format2Epos (-q)
  else if q = 0 then "0.00E+1"
  else format2Epos q

/-! ## The four checkers (from `ml_eda/reporting/recommendation.py`) -/

/-- The metric-scanning loop of `check_missing` (source lines 44-52): one pass
over `metrics` updating `total` on a TOTAL_COUNT entry and `missing` on a
MISSING entry, both starting at 0. -/
def scanTotalMissing (metrics : List ScalarMetric) : ℚ × ℚ :=
  metrics.foldl
    (fun acc item =>
      if item.name = MetricName.TOTAL_COUNT then (item.value, acc.2)
      else if item.name = MetricName.MISSING then (acc.1, item.value)
      else acc)
    (0, 0)

/-- `check_missing` (source lines 31-65): scan for TOTAL_COUNT and MISSING,
raise `ValueError('The dataset is empty')` when the total is 0, otherwise
return the HIGH_MISSING message when `missing / total` exceeds the
threshold, and `None` otherwise. -/
def check_missing (attribute_name : String) (analysis : Analysis) :
    Except PyError (Option Message) :=
  let tm := scanTotalMissing analysis.smetrics
  if tm.1 = 0 then Except.error (PyError.valueError "The dataset is empty")
  else
    let missing_rate := tm.2 / tm.1
    if missing_rate > MISSING_THRESHOLD then
      Except.ok (some (Message.highMissing attribute_name missing_rate))
    else Except.ok none

/-- The metric-scanning loop of `check_cardinality` (source lines 84-86):
`cardinality` starts at 0 and is updated on each CARDINALITY entry. -/
def scanCardinality (metrics : List ScalarMetric) : ℚ :=
  metrics.foldl
    (fun acc item => if item.name = MetricName.CARDINALITY then item.value else acc)
    0

/-- `check_cardinality` (source lines 68-94): scan for CARDINALITY (default 0
when absent), return the HIGH_CARDINALITY message when it exceeds the
threshold and `None` otherwise.  The source has no raise statement, so the
embedding is a total function into `Option`. -/
def check_cardinality (attribute_name : String) (analysis : Analysis) :
    Option Message :=
  let cardinality := scanCardinality analysis.smetrics
  if cardinality > CARDINALITY_THRESHOLD then
    some (Message.highCardinality attribute_name cardinality)
  else none

/-- The metric-scanning loop of `check_pearson_correlation` (source lines
112-114): `coefficient` starts at 0 and is updated on each
CORRELATION_COEFFICIENT entry. -/
def scanCoefficient (metrics : List ScalarMetric) : ℚ :=
  metrics.foldl
    (fun acc item =>
      if item.name = MetricName.CORRELATION_COEFFICIENT then item.value else acc)
    0

/-- `check_pearson_correlation` (source lines 97-124): scan for
CORRELATION_COEFFICIENT (default 0 when absent); when its absolute value
exceeds the threshold, index the first two feature names (an out-of-range
index raises `IndexError`) and return the HIGH_CORRELATION message with the
coefficient rendered by `"{0:.2f}"`; otherwise return `None` without
indexing the feature list. -/
def check_pearson_correlation (analysis : Analysis) :
    Except PyError (Option Message) :=
  let name_list := analysis.features.map FeatureAttribute.name
  let coefficient := scanCoefficient analysis.smetrics
  if |coefficient| > CORRELATION_COEFFICIENT_THRESHOLD then
    match name_list[0]?, name_list[1]? with
    | some name_one, some name_two =>
        Except.ok (some (Message.highCorrelation name_one name_two
          "correlation coefficient" (format2f coefficient)))
    | _, _ => Except.error PyError.indexError
  else Except.ok none

/-- `check_p_value` (source lines 127-153): index the first metric of the
sequence (raising `IndexError` when it is empty), resolve the analysis-kind
display name; when the p-value is below the threshold, index the first two
feature names and return the LOW_P_VALUE message with the p-value rendered
by `"{:.2E}"` on its exact decimal value; otherwise return `None` without
indexing the feature list. -/
def check_p_value (analysis : Analysis) : Except PyError (Option Message) :=
  match analysis.smetrics[0]? with
  | none => Except.error PyError.indexError
  | some metric =>
    let analysis_name := analysis.name.displayName
    let name_list := analysis.features.map FeatureAttribute.name
    let p_value := metric.value
    if p_value < P_VALUE_THRESHOLD then
      match name_list[0]?, name_list[1]? with
      | some name_one, some name_two =>
          Except.ok (some (Message.lowPValue name_one name_two
            "p-value" (format2E p_value) analysis_name))
      | _, _ => Except.error PyError.indexError
    else Except.ok none

/-! ## Last-entry characterisation of the scanning loops -/

/-- The value of the last entry of kind `k` in the list, if any. -/
def lastMatch (k : MetricName) : List ScalarMetric → Option ℚ
  | [] => none
  | m :: rest =>
    match lastMatch k rest with
    | some v => some v
    | none => if m.name = k then some m.value else none

/-- The value of the last entry of kind `k`, defaulting to 0 when no entry of
that kind is present. -/
def lastValueOfKind (k : MetricName) (metrics : List ScalarMetric) : ℚ :=
  (lastMatch k metrics).getD 0

theorem lastMatch_eq_none (k : MetricName) (l : List ScalarMetric)
    (h : ∀ m ∈ l, m.name ≠ k) : lastMatch k l = none := by
  induction l with
  | nil => rfl
  | cons m rest ih =>
    have hr := ih (fun x hx => h x (List.mem_cons_of_mem m hx))
    have hm := h m (List.mem_cons_self m rest)
    simp only [lastMatch, hr]
    simp [hm]

theorem lastMatch_cons_match (k : MetricName) (x : ScalarMetric)
    (rest : List ScalarMetric) (hx : x.name = k) :
    lastMatch k (x :: rest) = some ((lastMatch k rest).getD x.value) := by
  simp only [lastMatch]
  cases h : lastMatch k rest <;> simp [h, hx]

theorem lastMatch_cons_nomatch (k : MetricName) (x : ScalarMetric)
    (rest : List ScalarMetric) (hx : x.name ≠ k) :
    lastMatch k (x :: rest) = lastMatch k rest := by
  simp only [lastMatch]
  cases h : lastMatch k rest <;> simp [h, hx]

theorem foldl_scan_eq_lastMatch (k : MetricName) (l : List ScalarMetric) (init : ℚ) :
    l.foldl (fun acc item => if item.name = k then item.value else acc) init
      = (lastMatch k l).getD init := by
  induction l generalizing init with
  | nil => rfl
  | cons x rest ih =>
    simp only [List.foldl_cons]
    rw [ih]
    by_cases hx : x.name = k
    · rw [lastMatch_cons_match k x rest hx]
      simp [hx]
    · rw [lastMatch_cons_nomatch k x rest hx]
      simp [hx]

theorem scanTotalMissing_foldl_eq (l : List ScalarMetric) (t m : ℚ) :
    l.foldl
      (fun acc item =>
        if item.name = MetricName.TOTAL_COUNT then (item.value, acc.2)
        else if item.name = MetricName.MISSING then (acc.1, item.value)
        else acc)
      (t, m)
      = ((lastMatch MetricName.TOTAL_COUNT l).getD t,
         (lastMatch MetricName.MISSING l).getD m) := by
  induction l generalizing t m with
  | nil => rfl
  | cons x rest ih =>
    simp only [List.foldl_cons]
    by_cases h1 : x.name = MetricName.TOTAL_COUNT
    · have h2 : x.name ≠ MetricName.MISSING := by rw [h1]; decide
      rw [lastMatch_cons_match MetricName.TOTAL_COUNT x rest h1,
        lastMatch_cons_nomatch MetricName.MISSING x rest h2]
      rw [if_pos h1, ih]
      simp
    · by_cases h2 : x.name = MetricName.MISSING
      · rw [lastMatch_cons_nomatch MetricName.TOTAL_COUNT x rest h1,
          lastMatch_cons_match MetricName.MISSING x rest h2]
        rw [if_neg h1, if_pos h2, ih]
        simp
      · rw [lastMatch_cons_nomatch MetricName.TOTAL_COUNT x rest h1,
          lastMatch_cons_nomatch MetricName.MISSING x rest h2]
        rw [if_neg h1, if_neg h2]
        exact ih t m

theorem scanTotalMissing_eq_lastValue (l : List ScalarMetric) :
    scanTotalMissing l
      = (lastValueOfKind MetricName.TOTAL_COUNT l,
         lastValueOfKind MetricName.MISSING l) := by
  simpa [scanTotalMissing, lastValueOfKind] using scanTotalMissing_foldl_eq l 0 0

theorem scanCardinality_eq_lastValue (l : List ScalarMetric) :
    scanCardinality l = lastValueOfKind MetricName.CARDINALITY l := by
  simpa [scanCardinality, lastValueOfKind]
    using foldl_scan_eq_lastMatch MetricName.CARDINALITY l 0

theorem scanCoefficient_eq_lastValue (l : List ScalarMetric) :
    scanCoefficient l = lastValueOfKind MetricName.CORRELATION_COEFFICIENT l := by
  simpa [scanCoefficient, lastValueOfKind]
    using foldl_scan_eq_lastMatch MetricName.CORRELATION_COEFFICIENT l 0

/-! ## Claims -/

/-- C2: whenever the scanned TOTAL_COUNT value of the analysis record is 0,
`check_missing` raises `ValueError('The dataset is empty')`, regardless of
the MISSING metric's value; the error branch is taken before the division
`missing / total` is reached. -/
theorem check_missing_zero_total_raises (n : String) (a : Analysis)
    (h : (scanTotalMissing a.smetrics).1 = 0) :
    check_missing n a = Except.error (PyError.valueError "The dataset is empty") := by
  simp only [check_missing]
  rw [if_pos h]

theorem check_missing_zero_total_raises_witness :
    check_missing "age"
      (Analysis.mk AnalysisName.T_TEST []
        [ScalarMetric.mk MetricName.TOTAL_COUNT 0,
         ScalarMetric.mk MetricName.MISSING 5])
      = Except.error (PyError.valueError "The dataset is empty") :=
  check_missing_zero_total_raises "age" _ (by simp [scanTotalMissing])

/-- C10: whenever no entry of the metric sequence has kind TOTAL_COUNT, the
scanned total keeps its default 0 and `check_missing` raises
`ValueError('The dataset is empty')`; in particular an empty metric sequence
always triggers the error. -/
theorem check_missing_absent_total_raises (n : String) (a : Analysis)
    (h : ∀ m ∈ a.smetrics, m.name ≠ MetricName.TOTAL_COUNT) :
    check_missing n a = Except.error (PyError.valueError "The dataset is empty") := by
  have h0 : (scanTotalMissing a.smetrics).1 = 0 := by
    rw [scanTotalMissing_eq_lastValue]
    simp [lastValueOfKind, lastMatch_eq_none MetricName.TOTAL_COUNT a.smetrics h]
  simp only [check_missing]
  rw [if_pos h0]

theorem check_missing_absent_total_raises_witness :
    check_missing "age" (Analysis.mk AnalysisName.T_TEST [] [])
      = Except.error (PyError.valueError "The dataset is empty") :=
  check_missing_absent_total_raises "age" _ (by simp)

/-- C6: on an analysis record with an empty metric sequence, `check_p_value`
raises the out-of-bounds `IndexError` when indexing the first metric; no
guard precedes the indexing and no dedicated error kind exists for it. -/
theorem check_p_value_empty_metrics_raises (a : Analysis) (h : a.smetrics = []) :
    check_p_value a = Except.error PyError.indexError := by
  simp [check_p_value, h]

theorem check_p_value_empty_metrics_raises_witness :
    check_p_value
      (Analysis.mk AnalysisName.T_TEST
        [FeatureAttribute.mk "x", FeatureAttribute.mk "y"] [])
      = Except.error PyError.indexError :=
  check_p_value_empty_metrics_raises _ rfl

/-- C7: each of the four checkers is deterministic: two invocations on equal
inputs produce equal results.  Each checker is embedded as a pure total Lean
function of its arguments alone, mirroring that the source reads but never
mutates the analysis record and performs no I/O. -/
theorem checkers_deterministic (n1 n2 : String) (a b : Analysis)
    (hn : n1 = n2) (hab : a = b) :
    check_missing n1 a = check_missing n2 b
    ∧ check_cardinality n1 a = check_cardinality n2 b
    ∧ check_pearson_correlation a = check_pearson_correlation b
    ∧ check_p_value a = check_p_value b := by
  subst hn
  subst hab
  exact ⟨rfl, rfl, rfl, rfl⟩

theorem checkers_deterministic_witness :
    check_missing "age" (Analysis.mk AnalysisName.CHI_SQUARE [] [])
      = check_missing "age" (Analysis.mk AnalysisName.CHI_SQUARE [] [])
    ∧ check_cardinality "age" (Analysis.mk AnalysisName.CHI_SQUARE [] [])
      = check_cardinality "age" (Analysis.mk AnalysisName.CHI_SQUARE [] [])
    ∧ check_pearson_correlation (Analysis.mk AnalysisName.CHI_SQUARE [] [])
      = check_pearson_correlation (Analysis.mk AnalysisName.CHI_SQUARE [] [])
    ∧ check_p_value (Analysis.mk AnalysisName.CHI_SQUARE [] [])
      = check_p_value (Analysis.mk AnalysisName.CHI_SQUARE [] []) :=
  checkers_deterministic "age" "age" _ _ rfl rfl

/-- C1: for every analysis record whose scanned TOTAL_COUNT value is positive
and whose scanned MISSING value is nonnegative, `check_missing` returns the
high-missing message iff `missing / total` exceeds the 0.10 threshold, the
rate carried by the message is exactly the computed ratio, and otherwise the
result is `none` (absence, not an empty string). -/
theorem check_missing_threshold_iff (n : String) (a : Analysis)
    (htotal : 0 < (scanTotalMissing a.smetrics).1)
    (hmissing : 0 ≤ (scanTotalMissing a.smetrics).2) :
    (MISSING_THRESHOLD
        < (scanTotalMissing a.smetrics).2 / (scanTotalMissing a.smetrics).1 →
      check_missing n a = Except.ok (some (Message.highMissing n
        ((scanTotalMissing a.smetrics).2 / (scanTotalMissing a.smetrics).1))))
    ∧ ((scanTotalMissing a.smetrics).2 / (scanTotalMissing a.smetrics).1
        ≤ MISSING_THRESHOLD →
      check_missing n a = Except.ok none) := by
  constructor
  · intro h
    simp only [check_missing]
    rw [if_neg htotal.ne', if_pos h]
  · intro h
    simp only [check_missing]
    rw [if_neg htotal.ne', if_neg (not_lt.mpr h)]

theorem check_missing_threshold_iff_witness :
    check_missing "age"
      (Analysis.mk AnalysisName.T_TEST []
        [ScalarMetric.mk MetricName.TOTAL_COUNT 1000,
         ScalarMetric.mk MetricName.MISSING 150])
      = Except.ok (some (Message.highMissing "age" (3 / 20))) := by
  rw [(check_missing_threshold_iff "age"
      (Analysis.mk AnalysisName.T_TEST []
        [ScalarMetric.mk MetricName.TOTAL_COUNT 1000,
         ScalarMetric.mk MetricName.MISSING 150])
      (by simp [scanTotalMissing] <;> norm_num)
      (by simp [scanTotalMissing] <;> norm_num)).1
    (by simp [scanTotalMissing, MISSING_THRESHOLD] <;> norm_num)]
  simp [scanTotalMissing] <;> norm_num

/-- C3: for every analysis record with nonnegative scanned CARDINALITY value,
`check_cardinality` returns a message iff the cardinality exceeds 100; a
record with no CARDINALITY entry behaves exactly like one with cardinality 0
and yields `none`.  The embedding of `check_cardinality` is a total function
into `Option Message`: the source has no raise statement, so no error is
possible. -/
theorem check_cardinality_threshold_iff (n : String) (a : Analysis)
    (h : 0 ≤ scanCardinality a.smetrics) :
    (CARDINALITY_THRESHOLD < scanCardinality a.smetrics →
      check_cardinality n a
        = some (Message.highCardinality n (scanCardinality a.smetrics)))
    ∧ (scanCardinality a.smetrics ≤ CARDINALITY_THRESHOLD →
      check_cardinality n a = none)
    ∧ ((∀ m ∈ a.smetrics, m.name ≠ MetricName.CARDINALITY) →
      check_cardinality n a = none) := by
  refine ⟨fun hgt => ?_, fun hle => ?_, fun habs => ?_⟩
  · simp only [check_cardinality]
    rw [if_pos hgt]
  · simp only [check_cardinality]
    rw [if_neg (not_lt.mpr hle)]
  · have h0 : scanCardinality a.smetrics = 0 := by
      rw [scanCardinality_eq_lastValue]
      simp [lastValueOfKind, lastMatch_eq_none MetricName.CARDINALITY a.smetrics habs]
    simp only [check_cardinality, h0]
    norm_num [CARDINALITY_THRESHOLD]

theorem check_cardinality_threshold_iff_witness :
    check_cardinality "city"
      (Analysis.mk AnalysisName.CHI_SQUARE []
        [ScalarMetric.mk MetricName.CARDINALITY 150])
      = some (Message.highCardinality "city" 150) := by
  rw [(check_cardinality_threshold_iff "city"
      (Analysis.mk AnalysisName.CHI_SQUARE []
        [ScalarMetric.mk MetricName.CARDINALITY 150])
      (by simp [scanCardinality] <;> norm_num)).1
    (by simp [scanCardinality, CARDINALITY_THRESHOLD] <;> norm_num)]
  simp [scanCardinality] <;> norm_num

/-- C9: the feature list is only read when a threshold is violated: when the
scanned correlation coefficient has absolute value at most 0.30 (also when
the metric is absent), `check_pearson_correlation` returns `none` without
error whatever the feature list is; and when the first metric's value is at
least 0.05, `check_p_value` returns `none` without indexing the feature
list. -/
theorem checkers_below_threshold_no_feature_access (a : Analysis) :
    (|scanCoefficient a.smetrics| ≤ CORRELATION_COEFFICIENT_THRESHOLD →
      check_pearson_correlation a = Except.ok none)
    ∧ (∀ m0 rest, a.smetrics = m0 :: rest → P_VALUE_THRESHOLD ≤ m0.value →
      check_p_value a = Except.ok none) := by
  constructor
  · intro h
    simp only [check_pearson_correlation]
    rw [if_neg (not_lt.mpr h)]
  · intro m0 rest hs hp
    simp only [check_p_value, hs, List.getElem?_cons_zero]
    rw [if_neg (not_lt.mpr hp)]

theorem checkers_below_threshold_no_feature_access_witness :
    check_pearson_correlation
      (Analysis.mk AnalysisName.PEARSON_CORRELATION []
        [ScalarMetric.mk MetricName.CORRELATION_COEFFICIENT (2 / 10)])
      = Except.ok none
    ∧ check_p_value
      (Analysis.mk AnalysisName.T_TEST []
        [ScalarMetric.mk MetricName.P_VALUE (5 / 10)])
      = Except.ok none :=
  ⟨(checkers_below_threshold_no_feature_access
      (Analysis.mk AnalysisName.PEARSON_CORRELATION []
        [ScalarMetric.mk MetricName.CORRELATION_COEFFICIENT (2 / 10)])).1
      (by
        simp [scanCoefficient, CORRELATION_COEFFICIENT_THRESHOLD, abs_le]
          <;> norm_num),
   (checkers_below_threshold_no_feature_access
      (Analysis.mk AnalysisName.T_TEST []
        [ScalarMetric.mk MetricName.P_VALUE (5 / 10)])).2
      (ScalarMetric.mk MetricName.P_VALUE (5 / 10)) [] rfl
      (by norm_num [P_VALUE_THRESHOLD])⟩

/-- C4: for every analysis record with at least two features, writing `c` for
the scanned CORRELATION_COEFFICIENT value (0 when the metric is absent),
`check_pearson_correlation` returns the high-correlation message iff
`|c| > 0.30`; the message names the first two features positionally and its
value field is `c` rendered by the two-decimal fixed-point format; otherwise
the result is `none`. -/
theorem check_pearson_correlation_threshold_iff (a : Analysis)
    (hf : 2 ≤ a.features.length) :
    (CORRELATION_COEFFICIENT_THRESHOLD < |scanCoefficient a.smetrics| →
      ∃ n1 n2, (a.features.map FeatureAttribute.name)[0]? = some n1
        ∧ (a.features.map FeatureAttribute.name)[1]? = some n2
        ∧ check_pearson_correlation a = Except.ok (some (Message.highCorrelation
            n1 n2 "correlation coefficient"
            (format2f (scanCoefficient a.smetrics)))))
    ∧ (|scanCoefficient a.smetrics| ≤ CORRELATION_COEFFICIENT_THRESHOLD →
      check_pearson_correlation a = Except.ok none) := by
  have hl : (a.features.map FeatureAttribute.name).length = a.features.length := by
    simp
  have h0 : 0 < (a.features.map FeatureAttribute.name).length := by omega
  have h1 : 1 < (a.features.map FeatureAttribute.name).length := by omega
  constructor
  · intro h
    obtain ⟨n1, hn1⟩ : ∃ x, (a.features.map FeatureAttribute.name)[0]? = some x :=
      ⟨_, List.getElem?_eq_getElem h0⟩
    obtain ⟨n2, hn2⟩ : ∃ x, (a.features.map FeatureAttribute.name)[1]? = some x :=
      ⟨_, List.getElem?_eq_getElem h1⟩
    refine ⟨n1, n2, hn1, hn2, ?_⟩
    simp only [check_pearson_correlation, hn1, hn2]
    rw [if_pos h]
  · intro h
    simp only [check_pearson_correlation]
    rw [if_neg (not_lt.mpr h)]

theorem check_pearson_correlation_threshold_iff_witness :
    check_pearson_correlation
      (Analysis.mk AnalysisName.PEARSON_CORRELATION
        [FeatureAttribute.mk "age", FeatureAttribute.mk "income"]
        [ScalarMetric.mk MetricName.CORRELATION_COEFFICIENT (456 / 1000)])
      = Except.ok (some (Message.highCorrelation "age" "income"
          "correlation coefficient" "0.46")) := by
  obtain ⟨n1, n2, hn1, hn2, hc⟩ :=
    (check_pearson_correlation_threshold_iff
      (Analysis.mk AnalysisName.PEARSON_CORRELATION
        [FeatureAttribute.mk "age", FeatureAttribute.mk "income"]
        [ScalarMetric.mk MetricName.CORRELATION_COEFFICIENT (456 / 1000)])
      (by simp)).1
      (by simp [scanCoefficient, CORRELATION_COEFFICIENT_THRESHOLD, lt_abs]
            <;> norm_num)
  simp only [List.map_cons, List.map_nil, List.getElem?_cons_zero,
    List.getElem?_cons_succ, Option.some.injEq] at hn1 hn2
  subst hn1
  subst hn2
  rw [hc]
  simp only [scanCoefficient, List.foldl_cons, List.foldl_nil]
  norm_num [format2f, roundHalfEven, pad2]
  decide

/-- C5: for every analysis record whose metric sequence starts with `m0` and
which has at least two features, `check_p_value` reads the first metric
positionally (whatever its kind) and returns the low-p-value message iff
`m0.value < 0.05`; the message carries the first two feature names, the
analysis-kind display name, and the p-value rendered in two-digit scientific
notation; otherwise the result is `none`. -/
theorem check_p_value_threshold_iff (a : Analysis) (m0 : ScalarMetric)
    (rest : List ScalarMetric) (hs : a.smetrics = m0 :: rest)
    (hf : 2 ≤ a.features.length) :
    (m0.value < P_VALUE_THRESHOLD →
      ∃ n1 n2, (a.features.map FeatureAttribute.name)[0]? = some n1
        ∧ (a.features.map FeatureAttribute.name)[1]? = some n2
        ∧ check_p_value a = Except.ok (some (Message.lowPValue n1 n2 "p-value"
            (format2E m0.value) a.name.displayName)))
    ∧ (P_VALUE_THRESHOLD ≤ m0.value → check_p_value a = Except.ok none) := by
  have hl : (a.features.map FeatureAttribute.name).length = a.features.length := by
    simp
  have h0 : 0 < (a.features.map FeatureAttribute.name).length := by omega
  have h1 : 1 < (a.features.map FeatureAttribute.name).length := by omega
  constructor
  · intro hp
    obtain ⟨n1, hn1⟩ : ∃ x, (a.features.map FeatureAttribute.name)[0]? = some x :=
      ⟨_, List.getElem?_eq_getElem h0⟩
    obtain ⟨n2, hn2⟩ : ∃ x, (a.features.map FeatureAttribute.name)[1]? = some x :=
      ⟨_, List.getElem?_eq_getElem h1⟩
    refine ⟨n1, n2, hn1, hn2, ?_⟩
    simp only [check_p_value, hs, List.getElem?_cons_zero, hn1, hn2]
    rw [if_pos hp]
  · intro hp
    simp only [check_p_value, hs, List.getElem?_cons_zero]
    rw [if_neg (not_lt.mpr hp)]

theorem check_p_value_threshold_iff_witness :
    check_p_value
      (Analysis.mk AnalysisName.T_TEST
        [FeatureAttribute.mk "x", FeatureAttribute.mk "y"]
        [ScalarMetric.mk MetricName.P_VALUE (31 / 100000)])
      = Except.ok (some (Message.lowPValue "x" "y" "p-value" "3.10E-4" "T_TEST")) := by
  obtain ⟨n1, n2, hn1, hn2, hc⟩ :=
    (check_p_value_threshold_iff
      (Analysis.mk AnalysisName.T_TEST
        [FeatureAttribute.mk "x", FeatureAttribute.mk "y"]
        [ScalarMetric.mk MetricName.P_VALUE (31 / 100000)])
      (ScalarMetric.mk MetricName.P_VALUE (31 / 100000)) [] rfl (by simp)).1
      (by norm_num [P_VALUE_THRESHOLD])
  simp only [List.map_cons, List.map_nil, List.getElem?_cons_zero,
    List.getElem?_cons_succ, Option.some.injEq] at hn1 hn2
  subst hn1
  subst hn2
  rw [hc]
  have hn : ((31:ℚ)/100000).num = 31 := by norm_num
  have hd : ((31:ℚ)/100000).den = 100000 := by norm_num
  have dn : (31:ℤ).natAbs = 31 := by decide
  have d1 : digitsLen 31 31 = 2 := by decide
  have d2 : digitsLen 100000 100000 = 6 := by decide
  have h4 : (4:ℤ).toNat = 4 := by decide
  have h6 : (6:ℤ).toNat = 6 := by decide
  have he : findExp ((31:ℚ)/100000) = -4 := by
    simp only [findExp, hn, hd, dn, d1, d2]
    norm_num [pow10, h4]
  have hq : (31:ℚ)/100000 * pow10 (2 - -4) = 310 := by
    norm_num [pow10, h6]
  have hr : roundHalfEven (310 : ℚ) = 310 := by
    norm_num [roundHalfEven]
  have hpos : ¬((31:ℚ)/100000 < 0) := by norm_num
  have hz : ¬((31:ℚ)/100000 = 0) := by norm_num
  have hfmt : format2E ((31:ℚ)/100000) = "3.10E-4" := by
    rw [format2E, if_neg hpos, if_neg hz, format2Epos]
    rw [he]
    rw [hq]
    rw [hr]
    norm_num [pad2, expStr]
    decide
  simp only [AnalysisName.displayName]
  rw [hfmt]

/-- C8: when the metric sequence contains several entries of the same kind,
the scanning checkers use the value of the last such entry in sequence
order, silently ignoring earlier ones: each of `check_missing`,
`check_cardinality` and `check_pearson_correlation` is fully determined by
`lastValueOfKind`, the value of the last entry of each relevant kind
(defaulting to 0). -/
theorem checkers_use_last_metric_entry (n : String) (a : Analysis) :
    check_missing n a =
      (if lastValueOfKind MetricName.TOTAL_COUNT a.smetrics = 0 then
        Except.error (PyError.valueError "The dataset is empty")
      else if MISSING_THRESHOLD <
          lastValueOfKind MetricName.MISSING a.smetrics
            / lastValueOfKind MetricName.TOTAL_COUNT a.smetrics then
        Except.ok (some (Message.highMissing n
          (lastValueOfKind MetricName.MISSING a.smetrics
            / lastValueOfKind MetricName.TOTAL_COUNT a.smetrics)))
      else Except.ok none)
    ∧ check_cardinality n a =
      (if CARDINALITY_THRESHOLD < lastValueOfKind MetricName.CARDINALITY a.smetrics then
        some (Message.highCardinality n
          (lastValueOfKind MetricName.CARDINALITY a.smetrics))
      else none)
    ∧ check_pearson_correlation a =
      (if CORRELATION_COEFFICIENT_THRESHOLD
          < |lastValueOfKind MetricName.CORRELATION_COEFFICIENT a.smetrics| then
        (match (a.features.map FeatureAttribute.name)[0]?,
               (a.features.map FeatureAttribute.name)[1]? with
         | some n1, some n2 =>
             Except.ok (some (Message.highCorrelation n1 n2
               "correlation coefficient"
               (format2f (lastValueOfKind MetricName.CORRELATION_COEFFICIENT a.smetrics))))
         | _, _ => Except.error PyError.indexError)
      else Except.ok none) := by
  refine ⟨?_, ?_, ?_⟩
  · simp only [check_missing, scanTotalMissing_eq_lastValue, gt_iff_lt]
  · simp only [check_cardinality, scanCardinality_eq_lastValue, gt_iff_lt]
  · simp only [check_pearson_correlation, scanCoefficient_eq_lastValue, gt_iff_lt]

end MlEda
